import Mathlib

/-
Verification of the geographic grid synchronization engine of the
Auphere/places repository (Rust), via a shallow embedding in Lean 4.

Modelling conventions:
* Rust `u32` / `u64` counters are modelled as `Nat` (overflow panics in the
  Rust source's debug profile, so the non-wrapping reading is the semantics
  of every run that returns).
* Rust `f64` coordinates are modelled as `ℚ`.  The only transcendental
  operation in the embedded code is `cos` in the longitude-step computation
  of `GridGenerator::generate_grid`; the derived longitude step is therefore
  a parameter of the embedded function (every property proved below is
  independent of its concrete value).
* `std::time::Instant` / `Utc::now()` are modelled as `Nat` instants passed
  explicitly.
* The effectful environment (Google Places HTTP calls, sqlx database
  failures) is modelled as an explicit record of oracle functions; the
  database itself is explicit state threaded through the sync loop.
* Rust `while` loops whose bound variable is stepped by a runtime value are
  modelled with explicit fuel; the theorems hold for every fuel, hence for
  the unbounded loop whenever it terminates.
-/


/-! ### SyncStats (src/services/sync_service.rs) -/

/-- Embeds `struct SyncStats` of src/services/sync_service.rs. -/
structure SyncStats where
  city : String
  api_requests : Nat
  places_retrieved : Nat
  places_created : Nat
  places_skipped : Nat
  places_failed : Nat
  reviews_created : Nat
  photos_created : Nat
  errors : List String
  duration_seconds : Nat
  started_at : Nat
  completed_at : Option Nat
  deriving Repr, DecidableEq

/-- Embeds `SyncStats::new` (all counters zero, `completed_at = None`);
`now` stands for `Utc::now()`. -/
def SyncStats.new (city : String) (now : Nat) : SyncStats :=
  { city := city
    api_requests := 0
    places_retrieved := 0
    places_created := 0
    places_skipped := 0
    places_failed := 0
    reviews_created := 0
    photos_created := 0
    errors := []
    duration_seconds := 0
    started_at := now
    completed_at := none }

/-- Embeds `SyncStats::complete`. -/
def SyncStats.complete (s : SyncStats) (duration : Nat) (now : Nat) : SyncStats :=
  { s with duration_seconds := duration, completed_at := some now }

/-- Embeds the fold body of `SyncService::aggregate_stats`: note that the
source sums `api_requests`, `places_retrieved`, `places_created`,
`places_skipped`, `places_failed`, `duration_seconds` and extends `errors`,
and does NOT touch `reviews_created` / `photos_created`. -/
def aggStep (acc : SyncStats) (s : SyncStats) : SyncStats :=
  { acc with
    api_requests := acc.api_requests + s.api_requests
    places_retrieved := acc.places_retrieved + s.places_retrieved
    places_created := acc.places_created + s.places_created
    places_skipped := acc.places_skipped + s.places_skipped
    places_failed := acc.places_failed + s.places_failed
    duration_seconds := acc.duration_seconds + s.duration_seconds
    errors := acc.errors ++ s.errors }

/-- Embeds `SyncService::aggregate_stats`; `now` stands for the two
`Utc::now()` calls (their exact values are irrelevant to every claim). -/
def aggregate_stats (now : Nat) (stats_list : List SyncStats) : SyncStats :=
  let aggregated := stats_list.foldl aggStep (SyncStats.new "Multiple Cities" now)
  { aggregated with completed_at := some now }

/-- Sum of one projected field over a list of stats. -/
def sumBy (f : SyncStats → Nat) (l : List SyncStats) : Nat :=
  (l.map f).sum

/-! ### ResponseCache (src/services/cache.rs) -/

/-- Rust `f64::round`: round half away from zero, here on exact rationals. -/
def rustRound (x : ℚ) : ℤ :=
  if 0 ≤ x then ⌊x + 1 / 2⌋ else -⌊-x + 1 / 2⌋

/-- The coordinate quantization of `PlacesCache::generate_key`:
`(v * 10000.0).round() as i64`. -/
def quantize (x : ℚ) : ℤ :=
  rustRound (x * 10000)

/-- Embeds `PlacesCache::generate_key`. -/
def generate_key (lat lon : ℚ) (radius : Nat)
    (place_type keyword : Option String) : String :=
  "search:" ++ toString (quantize lat) ++ ":" ++ toString (quantize lon) ++ ":"
    ++ toString radius ++ ":" ++ place_type.getD "all" ++ ":" ++ keyword.getD ""

/-- Embeds `struct CacheEntry<String>`; `expires_at` is a `Nat` instant. -/
structure CacheEntryM where
  data : String
  expires_at : Nat
  deriving Repr, DecidableEq

/-- Embeds `CacheEntry::is_expired` at instant `now`:
`Instant::now() > self.expires_at`. -/
def CacheEntryM.is_expired (e : CacheEntryM) (now : Nat) : Bool :=
  decide (e.expires_at < now)

/-- The cache store (the `HashMap<String, CacheEntry<String>>` behind the
lock), as an association list whose first binding for a key is the live
one. -/
abbrev CacheStore : Type := List (String × CacheEntryM)

/-- Embeds `PlacesCache::get` at instant `now`: present and unexpired
yields the data; expired or absent yields nothing. -/
def cacheGet (store : CacheStore) (now : Nat) (key : String) : Option String :=
  match store.lookup key with
  | some entry => if entry.is_expired now then none else some entry.data
  | none => none

/-- Embeds `PlacesCache::set_with_ttl` at instant `now`
(`CacheEntry::new` computes `expires_at = Instant::now() + ttl`); the
`HashMap::insert` overwrite is the removal of any previous binding. -/
def cacheSet (store : CacheStore) (now : Nat) (key value : String) (ttl : Nat) : CacheStore :=
  (key, ⟨value, now + ttl⟩) :: store.filter (fun p => ¬(p.1 = key))

/-- Embeds `PlacesCache::cleanup` at instant `now`:
`store.retain(|_, entry| !entry.is_expired())`. -/
def cacheCleanup (store : CacheStore) (now : Nat) : CacheStore :=
  store.filter (fun p => ¬(p.2.is_expired now = true))

/-! ### CoordinateGrid (src/services/grid_generator.rs) -/

/-- Embeds `struct GridCell`. -/
structure GridCell where
  latitude : ℚ
  longitude : ℚ
  radius : Nat
  cell_id : String
  deriving Repr, DecidableEq

/-- Embeds `struct CityBounds`. -/
structure CityBounds where
  name : String
  min_lat : ℚ
  max_lat : ℚ
  min_lng : ℚ
  max_lng : ℚ
  deriving Repr, DecidableEq

/-- Embeds the inner `while lng <= bounds.max_lng` loop of
`GridGenerator::generate_grid`: emits one cell per longitude step of the
current latitude row, threading the 1-based cell counter; `fuel` bounds the
number of iterations (the Rust loop terminates only for a positive step, and
every theorem below holds for every fuel). -/
def genRow (bounds : CityBounds) (lng_step : ℚ) (radius_m : Nat) (lat : ℚ) :
    Nat → ℚ → Nat → List GridCell × Nat
  | 0, _, counter => ([], counter)
  | fuel + 1, lng, counter =>
    if lng ≤ bounds.max_lng then
      let counter1 := counter + 1
      let cell : GridCell := ⟨lat, lng, radius_m, bounds.name ++ "-" ++ toString counter1⟩
      let rest := genRow bounds lng_step radius_m lat fuel (lng + lng_step) counter1
      (cell :: rest.1, rest.2)
    else ([], counter)

/-- Embeds the outer `while lat <= bounds.max_lat` loop of
`GridGenerator::generate_grid`: one latitude row per step, each row starting
back at `bounds.min_lng`, the counter threaded across rows. -/
def genRows (bounds : CityBounds) (lat_step lng_step : ℚ) (radius_m : Nat) (rowFuel : Nat) :
    Nat → ℚ → Nat → List GridCell
  | 0, _, _ => []
  | fuel + 1, lat, counter =>
    if lat ≤ bounds.max_lat then
      let row := genRow bounds lng_step radius_m lat rowFuel bounds.min_lng counter
      row.1 ++ genRows bounds lat_step lng_step radius_m rowFuel fuel (lat + lat_step) row.2
    else []

/-- Embeds `GridGenerator::generate_grid`.  The latitude step is
`cell_size_km / 111` exactly as in the source; the longitude step is
`cell_size_km / (111 * cos(center_lat))` in the source, and since `cos` is
transcendental the derived step is taken as the parameter `lng_step` here
(every claim proved below is quantified over it). -/
def generate_grid (bounds : CityBounds) (cell_size_km lng_step : ℚ) (radius_m : Nat)
    (rowFuel colFuel : Nat) : List GridCell :=
  let lat_step := cell_size_km / 111
  genRows bounds lat_step lng_step radius_m rowFuel colFuel bounds.min_lat 0

/-- Rust `str::to_lowercase` restricted to the per-character mapping (the
registry keys are ASCII, for which this agrees with the source). -/
def strToLower (s : String) : String :=
  ⟨s.data.map Char.toLower⟩

/-- Embeds `GridGenerator::get_city_bounds`: the static registry holds only
Zaragoza (the other cities are commented out in the source); lookup is
case-insensitive; unknown names yield `none`. -/
def get_city_bounds (city_name : String) : Option CityBounds :=
  if strToLower city_name = "zaragoza" then
    some ⟨"Zaragoza", 41.6, 41.7, -0.95, -0.82⟩
  else
    none

/-- Embeds `GridGenerator::generate_for_city`: resolve the bounds
(`Unknown city` error on a miss), then generate with defaults 1.5 km /
1000 m. -/
def generate_for_city (city_name : String) (cell_size_km : Option ℚ) (radius_m : Option Nat)
    (lng_step : ℚ) (rowFuel colFuel : Nat) : Except String (List GridCell) :=
  match get_city_bounds city_name with
  | none => .error ("Unknown city: " ++ city_name)
  | some bounds =>
      .ok (generate_grid bounds (cell_size_km.getD 1.5) lng_step (radius_m.getD 1000)
        rowFuel colFuel)

/-- The 1-based sequential cell identifiers `"{name}-{i}"` starting after
`counter` previously used indices. -/
def idsFrom (name : String) (counter n : Nat) : List String :=
  (List.range n).map (fun i => name ++ "-" ++ toString (counter + i + 1))

/-- Latitude-major generation order: an earlier cell has strictly smaller
latitude, or the same latitude and strictly smaller longitude. -/
def latMajorLt (a b : GridCell) : Prop :=
  a.latitude < b.latitude ∨ (a.latitude = b.latitude ∧ a.longitude < b.longitude)

/-! ### Errors (src/errors.rs) -/

/-- Embeds `enum PlacesError`. -/
inductive PlacesError where
  | NotFound (msg : String)
  | AlreadyExists (msg : String)
  | DatabaseError (msg : String)
  | InvalidInput (msg : String)
  | ValidationError (msg : String)
  | Unauthorized
  | Forbidden
  | InternalError
  | ExternalApiError (msg : String)
  | RateLimitExceeded
  | ServiceUnavailable
  deriving Repr, DecidableEq

/-- Embeds the `thiserror` `#[error(...)]` display strings of
`PlacesError`. -/
def PlacesError.display : PlacesError → String
  | .NotFound m => "Place not found with id: " ++ m
  | .AlreadyExists m => "Place already exists: " ++ m
  | .DatabaseError m => "Database error: " ++ m
  | .InvalidInput m => "Invalid input: " ++ m
  | .ValidationError m => "Validation error: " ++ m
  | .Unauthorized => "Unauthorized access"
  | .Forbidden => "Forbidden access"
  | .InternalError => "Internal server error"
  | .ExternalApiError m => "External API error: " ++ m
  | .RateLimitExceeded => "Rate limit exceeded"
  | .ServiceUnavailable => "Service temporarily unavailable"

/-! ### Google Places client (src/services/google_places_client.rs) -/

/-- Embeds `struct GoogleReview` (the fields the sync path reads). -/
structure GoogleReview where
  author_name : Option String
  rating : Option Int
  text : Option String
  time : Option Int
  profile_photo_url : Option String
  deriving Repr, DecidableEq

/-- Embeds `struct GooglePhoto` (the fields the sync path reads). -/
structure GooglePhoto where
  photo_reference : String
  width : Option Int
  height : Option Int
  html_attributions : Option (List String)
  deriving Repr, DecidableEq

/-- Embeds `struct GooglePlace`, restricted to the fields the sync loop and
`to_create_request` projection modelled here read (geometry flattened to
`lat`/`lng`). -/
structure GooglePlace where
  place_id : String
  name : String
  types : List String
  lat : ℚ
  lng : ℚ
  rating : Option ℚ
  reviews : Option (List GoogleReview)
  photos : Option (List GooglePhoto)
  deriving Repr, DecidableEq

/-- The fixed priority list of
`GooglePlacesClient::map_google_type_to_internal`. -/
def type_map : List (String × String) :=
  [("restaurant", "restaurant"), ("bar", "bar"), ("night_club", "nightclub"),
   ("nightclub", "nightclub"), ("cafe", "cafe"), ("museum", "other"),
   ("park", "other"), ("shopping_mall", "other"), ("lodging", "other"),
   ("food", "restaurant"), ("meal_takeaway", "restaurant"),
   ("meal_delivery", "restaurant")]

/-- Embeds `GooglePlacesClient::map_google_type_to_internal`: first entry of
the priority list matched by any of the place's types wins, default
`"other"`. -/
def map_google_type_to_internal (types : List String) : String :=
  match type_map.find? (fun pair => types.contains pair.1) with
  | some pair => pair.2
  | none => "other"

/-- Embeds `CreatePlaceRequest` (src/models/place.rs), restricted to the
fields the upsert/dedup claims observe; `location` is `(lng, lat)` exactly
as the source's two-element array. -/
structure CreatePlaceRequest where
  name : String
  type_ : String
  location : ℚ × ℚ
  city : String
  google_place_id : Option String
  google_rating : Option ℚ
  deriving Repr, DecidableEq

/-- Embeds `GooglePlacesClient::to_create_request` on the modelled fields;
in particular `google_place_id := some place_id`, as in the source. -/
def to_create_request (gp : GooglePlace) (city : String) : CreatePlaceRequest :=
  { name := gp.name
    type_ := map_google_type_to_internal gp.types
    location := (gp.lng, gp.lat)
    city := city
    google_place_id := some gp.place_id
    google_rating := gp.rating }

/-! ### Dedup/UpsertStore (src/db/repository.rs) -/

/-- A stored `places` row (the modelled columns). -/
structure Place where
  id : Nat
  name : String
  type_ : String
  location : ℚ × ℚ
  city : String
  google_place_id : Option String
  google_rating : Option ℚ
  deriving Repr, DecidableEq

/-- The `places` table: rows in insertion order plus the id sequence. -/
structure Db where
  places : List Place
  next_id : Nat
  deriving Repr, DecidableEq

/-- The empty database. -/
def emptyDb : Db :=
  { places := [], next_id := 0 }

/-- Number of stored rows carrying a given `google_place_id` (the column is
under a unique constraint in the schema; in the model it is a derived
fact). -/
def countGid (db : Db) (gid : String) : Nat :=
  (db.places.filter (fun p => p.google_place_id == some gid)).length

/-- The oracle environment: upstream HTTP behaviour and sqlx-level store
failures, plus the run parameters the embedding threads explicitly (the
cos-derived longitude step, loop fuels, clock values). -/
structure SyncEnv where
  nearby : ℚ → ℚ → Nat → Option String → Option String →
    Except PlacesError (List GooglePlace)
  details : String → Except PlacesError GooglePlace
  insertFails : String → Option String
  reviewOk : Nat → String → Bool
  photoOk : Nat → String → Bool
  lng_step : ℚ
  rowFuel : Nat
  colFuel : Nat
  startTime : Nat
  duration : Nat
  endTime : Nat

/-- Embeds `PlaceRepository::upsert_google_place`:
`google_place_id` is required (`InvalidInput` otherwise); an sqlx failure
(the `insertFails` oracle) is a `DatabaseError`; otherwise
`INSERT ... ON CONFLICT (google_place_id) DO NOTHING RETURNING id` detects
creation — no existing row means insert and `(place, true)`, else the
`UPDATE ... WHERE google_place_id = $23` overwrites the mutable columns of
the matching row(s) and returns `(place, false)`. -/
def upsert_google_place (env : SyncEnv) (db : Db) (req : CreatePlaceRequest) :
    Except PlacesError (Db × Place × Bool) :=
  match req.google_place_id with
  | none => .error (.InvalidInput "google_place_id is required for upsert")
  | some gid =>
    match env.insertFails gid with
    | some msg => .error (.DatabaseError msg)
    | none =>
      match db.places.find? (fun p => p.google_place_id == some gid) with
      | none =>
          let place : Place :=
            { id := db.next_id, name := req.name, type_ := req.type_,
              location := req.location, city := req.city,
              google_place_id := some gid, google_rating := req.google_rating }
          .ok ({ places := db.places ++ [place], next_id := db.next_id + 1 }, place, true)
      | some old =>
          let updated : Place :=
            { old with
              name := req.name
              type_ := req.type_
              location := req.location
              city := req.city
              google_rating := req.google_rating }
          let newPlaces := db.places.map
            (fun p => if p.google_place_id == some gid then updated else p)
          .ok ({ db with places := newPlaces }, updated, false)

/-! ### SyncOrchestrator (src/services/sync_service.rs, `sync_city`) -/

/-- The place the sync loop works with after the detail lookup: the
enriched record on success, the basic nearby-search record on failure. -/
def detailedOf (env : SyncEnv) (gp : GooglePlace) : GooglePlace :=
  match env.details gp.place_id with
  | .ok d => d
  | .error _ => gp

/-- Embeds one iteration of the review subloop of `SyncService::sync_city`:
a review with a numeric rating is upserted under the dedup key
`"{place_id}_{time}"`; a success bumps `reviews_created`, a failure is only
logged. -/
def reviewStep (env : SyncEnv) (pid : Nat) (pids : String) (acc : SyncStats)
    (review : GoogleReview) : SyncStats :=
  match review.rating with
  | some _ =>
      if env.reviewOk pid (pids ++ "_" ++ toString (review.time.getD 0))
      then { acc with reviews_created := acc.reviews_created + 1 }
      else acc
  | none => acc

/-- Embeds the `if let Some(ref reviews)` review subloop. -/
def processReviews (env : SyncEnv) (pid : Nat) (pids : String)
    (rv : Option (List GoogleReview)) (acc : SyncStats) : SyncStats :=
  match rv with
  | some reviews => reviews.foldl (reviewStep env pid pids) acc
  | none => acc

/-- Embeds one iteration of the photo subloop: a successful
`create_photo` bumps `photos_created`, a failure is only logged. -/
def photoStep (env : SyncEnv) (pid : Nat) (acc : SyncStats) (photo : GooglePhoto) :
    SyncStats :=
  if env.photoOk pid photo.photo_reference
  then { acc with photos_created := acc.photos_created + 1 }
  else acc

/-- Embeds the `if let Some(ref photos)` photo subloop. -/
def processPhotos (env : SyncEnv) (pid : Nat) (ph : Option (List GooglePhoto))
    (acc : SyncStats) : SyncStats :=
  match ph with
  | some photos => photos.foldl (photoStep env pid) acc
  | none => acc

/-- Embeds the per-record body of the cell loop of `SyncService::sync_city`:
detail lookup (one more API request on success, basic record on failure —
the failure is only logged, never recorded in the stats errors), mapping,
upsert (store failure increments `places_failed`, appends an error string
and skips the record), then the review and photo subloops. -/
def processPlace (env : SyncEnv) (city : String) (st : Db × SyncStats)
    (google_place : GooglePlace) : Db × SyncStats :=
  let detailed_place := detailedOf env google_place
  let stats1 := match env.details google_place.place_id with
    | .ok _ => { st.2 with api_requests := st.2.api_requests + 1 }
    | .error _ => st.2
  let create_req := to_create_request detailed_place city
  match upsert_google_place env st.1 create_req with
  | .error e =>
      (st.1, { stats1 with
        places_failed := stats1.places_failed + 1
        errors := stats1.errors
          ++ ["Failed to store " ++ create_req.name ++ ": " ++ e.display] })
  | .ok (db1, place, created) =>
      let stats2 :=
        if created then { stats1 with places_created := stats1.places_created + 1 }
        else { stats1 with places_skipped := stats1.places_skipped + 1 }
      let stats3 := processReviews env place.id detailed_place.place_id
        detailed_place.reviews stats2
      let stats4 := processPhotos env place.id detailed_place.photos stats3
      (db1, stats4)

/-- Embeds the cell loop of `SyncService::sync_city`: a successful
nearby-search counts one API request, adds the retrieved count and
processes each record; a failed nearby-search appends an error string and
— exactly when the error is `RateLimitExceeded` — breaks out of the loop,
otherwise continues with the next cell. -/
def processCells (env : SyncEnv) (city : String) (place_type : Option String) :
    List GridCell → Db × SyncStats → Db × SyncStats
  | [], st => st
  | cell :: rest, st =>
    match env.nearby cell.latitude cell.longitude cell.radius place_type none with
    | .ok google_places =>
        let stats1 := { st.2 with
          api_requests := st.2.api_requests + 1
          places_retrieved := st.2.places_retrieved + google_places.length }
        let st1 := google_places.foldl (processPlace env city) (st.1, stats1)
        processCells env city place_type rest st1
    | .error e =>
        let stats1 := { st.2 with
          errors := st.2.errors
            ++ ["API error for cell " ++ cell.cell_id ++ ": " ++ e.display] }
        if e = .RateLimitExceeded then (st.1, stats1)
        else processCells env city place_type rest (st.1, stats1)

/-- Embeds `SyncService::sync_city`: grid generation failure is an
`InvalidInput` error carrying no stats; otherwise the cell loop runs and
the completed stats are returned as the `Ok` result (also after a
rate-limit abort). -/
def sync_city (env : SyncEnv) (db : Db) (city : String) (place_type : Option String)
    (cell_size_km : Option ℚ) (radius_m : Option Nat) :
    Db × Except PlacesError SyncStats :=
  let stats := SyncStats.new city env.startTime
  match generate_for_city city cell_size_km radius_m env.lng_step env.rowFuel env.colFuel with
  | .error e => (db, .error (.InvalidInput e))
  | .ok cells =>
      let st := processCells env city place_type cells (db, stats)
      (st.1, .ok (st.2.complete env.duration env.endTime))

/-- The stats fields the subordinate-record subloops never touch. -/
def coreStats (s : SyncStats) : Nat × Nat × Nat × Nat × Nat × List String :=
  (s.api_requests, s.places_retrieved, s.places_created, s.places_skipped,
    s.places_failed, s.errors)

/-- `Result::is_ok`. -/
def isOkE {ε α : Type} : Except ε α → Bool
  | .ok _ => true
  | .error _ => false

/-- A concrete environment whose source returns nothing and whose store
never fails, for witnessing. -/
def envStub : SyncEnv :=
  { nearby := fun _ _ _ _ _ => .ok []
    details := fun _ => .error (.ExternalApiError "details unavailable")
    insertFails := fun _ => none
    reviewOk := fun _ _ => true
    photoOk := fun _ _ => true
    lng_step := 1
    rowFuel := 1
    colFuel := 1
    startTime := 0
    duration := 0
    endTime := 0 }

/-- A concrete create request carrying google_place_id `"g1"`. -/
def reqG1 : CreatePlaceRequest :=
  { name := "Bar X"
    type_ := "bar"
    location := (0, 0)
    city := "Zaragoza"
    google_place_id := some "g1"
    google_rating := none }

/-- The store after the first upsert of `reqG1` into the empty store. -/
def dbG1 : Db :=
  { places := [{ id := 0
                 name := "Bar X"
                 type_ := "bar"
                 location := (0, 0)
                 city := "Zaragoza"
                 google_place_id := some "g1"
                 google_rating := none }]
    next_id := 1 }

/-- A concrete environment whose source always reports rate limiting. -/
def envRL : SyncEnv :=
  { envStub with nearby := fun _ _ _ _ _ => .error .RateLimitExceeded }

/-- Number of detail lookups among the retrieved records that succeed (each
is billed as one API request by the loop). -/
def detailSuccesses (env : SyncEnv) (gps : List GooglePlace) : Nat :=
  (gps.filter (fun gp => isOkE (env.details gp.place_id))).length

/-- The API-request charging rule the cell loop actually implements, read
off the spec's \"count as one API call\" sentences but restricted to
successful calls: one per successful nearby-search, plus one per successful
detail lookup, and nothing at or beyond a rate-limited cell. -/
def chargedApiRequests (env : SyncEnv) (place_type : Option String) :
    List GridCell → Nat
  | [] => 0
  | cell :: rest =>
    match env.nearby cell.latitude cell.longitude cell.radius place_type none with
    | .ok gps => 1 + detailSuccesses env gps + chargedApiRequests env place_type rest
    | .error e =>
        if e = .RateLimitExceeded then 0 else chargedApiRequests env place_type rest

/-- A concrete environment whose nearby-search always fails with a
non-rate-limit upstream error. -/
def envApiErr : SyncEnv :=
  { envStub with nearby := fun _ _ _ _ _ => .error (.ExternalApiError "boom") }

/-- A concrete retrieved record whose detail lookup will fail under
`envStub`. -/
def gpBar : GooglePlace :=
  { place_id := "g1"
    name := "Bar X"
    types := ["bar"]
    lat := 0
    lng := 0
    rating := none
    reviews := none
    photos := none }

/-! ### Properties -/

lemma foldl_aggStep_api (l : List SyncStats) (acc : SyncStats) :
    (l.foldl aggStep acc).api_requests = acc.api_requests + sumBy (·.api_requests) l := by
  induction l generalizing acc with
  | nil => simp [sumBy]
  | cons s t ih => simp [List.foldl_cons, ih, aggStep, sumBy, List.map_cons, List.sum_cons]; ring

lemma foldl_aggStep_retrieved (l : List SyncStats) (acc : SyncStats) :
    (l.foldl aggStep acc).places_retrieved
      = acc.places_retrieved + sumBy (·.places_retrieved) l := by
  induction l generalizing acc with
  | nil => simp [sumBy]
  | cons s t ih => simp [List.foldl_cons, ih, aggStep, sumBy, List.map_cons, List.sum_cons]; ring

lemma foldl_aggStep_created (l : List SyncStats) (acc : SyncStats) :
    (l.foldl aggStep acc).places_created = acc.places_created + sumBy (·.places_created) l := by
  induction l generalizing acc with
  | nil => simp [sumBy]
  | cons s t ih => simp [List.foldl_cons, ih, aggStep, sumBy, List.map_cons, List.sum_cons]; ring

lemma foldl_aggStep_skipped (l : List SyncStats) (acc : SyncStats) :
    (l.foldl aggStep acc).places_skipped = acc.places_skipped + sumBy (·.places_skipped) l := by
  induction l generalizing acc with
  | nil => simp [sumBy]
  | cons s t ih => simp [List.foldl_cons, ih, aggStep, sumBy, List.map_cons, List.sum_cons]; ring

lemma foldl_aggStep_failed (l : List SyncStats) (acc : SyncStats) :
    (l.foldl aggStep acc).places_failed = acc.places_failed + sumBy (·.places_failed) l := by
  induction l generalizing acc with
  | nil => simp [sumBy]
  | cons s t ih => simp [List.foldl_cons, ih, aggStep, sumBy, List.map_cons, List.sum_cons]; ring

lemma foldl_aggStep_duration (l : List SyncStats) (acc : SyncStats) :
    (l.foldl aggStep acc).duration_seconds
      = acc.duration_seconds + sumBy (·.duration_seconds) l := by
  induction l generalizing acc with
  | nil => simp [sumBy]
  | cons s t ih => simp [List.foldl_cons, ih, aggStep, sumBy, List.map_cons, List.sum_cons]; ring

lemma foldl_aggStep_errors (l : List SyncStats) (acc : SyncStats) :
    (l.foldl aggStep acc).errors = acc.errors ++ l.flatMap (·.errors) := by
  induction l generalizing acc with
  | nil => simp
  | cons s t ih => simp [List.foldl_cons, ih, aggStep]

lemma foldl_aggStep_reviews (l : List SyncStats) (acc : SyncStats) :
    (l.foldl aggStep acc).reviews_created = acc.reviews_created := by
  induction l generalizing acc with
  | nil => rfl
  | cons s t ih => simp [List.foldl_cons, ih, aggStep]

lemma foldl_aggStep_photos (l : List SyncStats) (acc : SyncStats) :
    (l.foldl aggStep acc).photos_created = acc.photos_created := by
  induction l generalizing acc with
  | nil => rfl
  | cons s t ih => simp [List.foldl_cons, ih, aggStep]

/-- Claim C3, counterexample: `aggregate_stats` does not sum the
subordinate-record counts.  Over a single input whose `reviews_created` is 1
and `photos_created` is 1, the aggregate carries 0 in both fields while the
field-wise sums are 1. -/
theorem C3_counterexample :
    (aggregate_stats 0 [{ SyncStats.new "Madrid" 0 with
        reviews_created := 1, photos_created := 1 }]).reviews_created = 0 ∧
    (aggregate_stats 0 [{ SyncStats.new "Madrid" 0 with
        reviews_created := 1, photos_created := 1 }]).photos_created = 0 ∧
    sumBy (·.reviews_created) [{ SyncStats.new "Madrid" 0 with
        reviews_created := 1, photos_created := 1 }] = 1 ∧
    sumBy (·.photos_created) [{ SyncStats.new "Madrid" 0 with
        reviews_created := 1, photos_created := 1 }] = 1 := by
  refine ⟨rfl, rfl, rfl, rfl⟩

/-- Claim C3 (amended): for every list of SyncStats (including the empty
list) the aggregate's API-request, retrieved, created, skipped, failed and
duration fields equal the field-wise sums over the inputs, and its error
list is the in-order concatenation of the inputs' error lists; the
subordinate-record counts `reviews_created` and `photos_created` are NOT
summed — the aggregate always carries 0 in those two fields.  Over the
empty list every count is zero. -/
theorem C3_aggregate_stats_sums (now : Nat) (l : List SyncStats) :
    (aggregate_stats now l).api_requests = sumBy (·.api_requests) l ∧
    (aggregate_stats now l).places_retrieved = sumBy (·.places_retrieved) l ∧
    (aggregate_stats now l).places_created = sumBy (·.places_created) l ∧
    (aggregate_stats now l).places_skipped = sumBy (·.places_skipped) l ∧
    (aggregate_stats now l).places_failed = sumBy (·.places_failed) l ∧
    (aggregate_stats now l).duration_seconds = sumBy (·.duration_seconds) l ∧
    (aggregate_stats now l).errors = l.flatMap (·.errors) ∧
    (aggregate_stats now l).reviews_created = 0 ∧
    (aggregate_stats now l).photos_created = 0 := by
  unfold aggregate_stats
  refine ⟨?_, ?_, ?_, ?_, ?_, ?_, ?_, ?_, ?_⟩ <;>
    simp [foldl_aggStep_api, foldl_aggStep_retrieved, foldl_aggStep_created,
      foldl_aggStep_skipped, foldl_aggStep_failed, foldl_aggStep_duration,
      foldl_aggStep_errors, foldl_aggStep_reviews, foldl_aggStep_photos,
      SyncStats.new]

lemma cacheCleanup_mem (store : CacheStore) (now : Nat) (p : String × CacheEntryM) :
    p ∈ cacheCleanup store now ↔ p ∈ store ∧ p.2.is_expired now = false := by
  simp [cacheCleanup, List.mem_filter]

/-- Claim C6: (a) a freshly set entry is retrievable at every instant up to
its expiry and absent at every later instant, with no cleanup involved;
(b) cleanup removes exactly the expired entries (every expired entry goes,
no unexpired entry goes); (c) cleanup is idempotent. -/
theorem C6_cache_ttl_cleanup :
    (∀ (store : CacheStore) (key value : String) (t ttl t' : Nat), t' ≤ t + ttl →
      cacheGet (cacheSet store t key value ttl) t' key = some value) ∧
    (∀ (store : CacheStore) (key value : String) (t ttl t' : Nat), t + ttl < t' →
      cacheGet (cacheSet store t key value ttl) t' key = none) ∧
    (∀ (store : CacheStore) (now : Nat) (p : String × CacheEntryM),
      p ∈ cacheCleanup store now ↔ p ∈ store ∧ p.2.is_expired now = false) ∧
    (∀ (store : CacheStore) (now : Nat),
      cacheCleanup (cacheCleanup store now) now = cacheCleanup store now) := by
  refine ⟨?_, ?_, cacheCleanup_mem, ?_⟩
  · intro store key value t ttl t' h
    simp [cacheGet, cacheSet, List.lookup, CacheEntryM.is_expired, Nat.not_lt.mpr h]
  · intro store key value t ttl t' h
    simp [cacheGet, cacheSet, List.lookup, CacheEntryM.is_expired, h]
  · intro store now
    simp only [cacheCleanup, List.filter_filter]
    congr 1
    funext p
    cases h : p.2.is_expired now <;> simp [h]

/-- Claim C6, witness: a concrete run — set at instant 0 with TTL 1,
retrievable at instant 1, gone at instant 2; cleanup on a two-entry store
with one expired entry keeps exactly the live one and a second cleanup
changes nothing. -/
theorem C6_cache_ttl_cleanup_witness :
    cacheGet (cacheSet [] 0 "k" "v" 1) 1 "k" = some "v" ∧
    cacheGet (cacheSet [] 0 "k" "v" 1) 2 "k" = none ∧
    (("dead", (⟨"x", 0⟩ : CacheEntryM)) ∈
        cacheCleanup [("dead", ⟨"x", 0⟩), ("live", ⟨"y", 9⟩)] 5 ↔
      (("dead", (⟨"x", 0⟩ : CacheEntryM)) ∈
          ([("dead", ⟨"x", 0⟩), ("live", ⟨"y", 9⟩)] : CacheStore) ∧
        CacheEntryM.is_expired ⟨"x", 0⟩ 5 = false)) ∧
    cacheCleanup (cacheCleanup [("dead", ⟨"x", 0⟩), ("live", ⟨"y", 9⟩)] 5) 5 =
      cacheCleanup [("dead", ⟨"x", 0⟩), ("live", ⟨"y", 9⟩)] 5 := by
  refine ⟨C6_cache_ttl_cleanup.1 [] "k" "v" 0 1 1 (by decide),
          C6_cache_ttl_cleanup.2.1 [] "k" "v" 0 1 2 (by decide),
          C6_cache_ttl_cleanup.2.2.1 _ 5 _,
          C6_cache_ttl_cleanup.2.2.2 _ 5⟩

lemma quantize_40_00004 : quantize (40 + 4 / 100000) = 400000 := by
  norm_num [quantize, rustRound]

lemma quantize_40_00006 : quantize (40 + 6 / 100000) = 400001 := by
  norm_num [quantize, rustRound]

lemma quantize_neg_3_7038 : quantize (-37038 / 10000) = -37038 := by
  norm_num [quantize, rustRound]

lemma quantize_40_4168 : quantize (404168 / 10000) = 404168 := by
  norm_num [quantize, rustRound]

lemma quantize_40_4169 : quantize (404169 / 10000) = 404169 := by
  norm_num [quantize, rustRound]

lemma quantize_40_41681 : quantize (404168 / 10000 + 1 / 100000) = 404168 := by
  norm_num [quantize, rustRound]

/-- Claim C5, counterexample: two latitudes 0.00002° apart (≈ 2.2 m at the
spec's own 111 km-per-degree conversion, so well within 10 m of each
other), all other arguments equal, straddle a quantization boundary and
yield different keys. -/
theorem C5_counterexample :
    |((40 + 4 / 100000 : ℚ)) - (40 + 6 / 100000)| * 111000 < 10 ∧
    generate_key (40 + 4 / 100000) (-37038 / 10000) 1000 (some "restaurant") none ≠
      generate_key (40 + 6 / 100000) (-37038 / 10000) 1000 (some "restaurant") none := by
  constructor
  · rw [abs_sub_comm]
    rw [abs_of_nonneg (by norm_num)]
    norm_num
  · simp only [generate_key, quantize_40_00004, quantize_40_00006, quantize_neg_3_7038]
    decide

/-- Claim C5 (amended): `generate_key` is referentially transparent and
quantizes each coordinate to the nearest multiple of 0.0001° (≈ 11 m):
identical arguments give identical keys; two queries whose latitudes and
longitudes round to the same multiples of 0.0001° (all other arguments
equal) collide to the same key — but two points within 10 m of each other
may straddle a rounding boundary and get different keys; changing the
latitude of the spec's example query by 0.0001° yields a different key, and
changing only its keyword to a non-empty value yields a different key. -/
theorem C5_generate_key_quantization :
    (∀ (lat lon : ℚ) (radius : Nat) (pt kw : Option String),
      generate_key lat lon radius pt kw = generate_key lat lon radius pt kw) ∧
    (∀ (lat lat' lon lon' : ℚ) (radius : Nat) (pt kw : Option String),
      quantize lat = quantize lat' → quantize lon = quantize lon' →
      generate_key lat lon radius pt kw = generate_key lat' lon' radius pt kw) ∧
    generate_key (404168 / 10000) (-37038 / 10000) 1000 (some "restaurant") none ≠
      generate_key (404169 / 10000) (-37038 / 10000) 1000 (some "restaurant") none ∧
    generate_key (404168 / 10000) (-37038 / 10000) 1000 (some "restaurant") none ≠
      generate_key (404168 / 10000) (-37038 / 10000) 1000 (some "restaurant")
        (some "tapas") := by
  refine ⟨fun _ _ _ _ _ => rfl, ?_, ?_, ?_⟩
  · intro lat lat' lon lon' radius pt kw hlat hlon
    simp [generate_key, hlat, hlon]
  · simp only [generate_key, quantize_40_4168, quantize_40_4169, quantize_neg_3_7038]
    decide
  · simp only [generate_key, quantize_40_4168, quantize_neg_3_7038]
    decide

/-- Claim C5 (amended), witness: the collision part applied to two
latitudes that round to the same multiple of 0.0001°. -/
theorem C5_generate_key_quantization_witness :
    generate_key (404168 / 10000 + 1 / 100000) (-37038 / 10000) 1000 (some "restaurant") none =
      generate_key (404168 / 10000) (-37038 / 10000) 1000 (some "restaurant") none := by
  exact C5_generate_key_quantization.2.1 _ _ _ _ 1000 (some "restaurant") none
    (quantize_40_41681.trans quantize_40_4168.symm) rfl

lemma idsFrom_succ (name : String) (c n : Nat) :
    idsFrom name c (n + 1) = (name ++ "-" ++ toString (c + 1)) :: idsFrom name (c + 1) n := by
  unfold idsFrom
  rw [List.range_succ_eq_map, List.map_cons, List.map_map]
  refine congrArg₂ _ (by simp) (List.map_congr_left ?_)
  intro i _
  exact congrArg (fun k => name ++ "-" ++ toString k) (by omega)

lemma idsFrom_append (name : String) (c m n : Nat) :
    idsFrom name c (m + n) = idsFrom name c m ++ idsFrom name (c + m) n := by
  unfold idsFrom
  rw [List.range_add, List.map_append, List.map_map]
  refine congrArg₂ _ rfl (List.map_congr_left ?_)
  intro i _
  simp only [Function.comp]
  exact congrArg (fun k => name ++ "-" ++ toString k) (by omega)

lemma genRow_counter (bounds : CityBounds) (ls : ℚ) (r : Nat) (lat : ℚ) :
    ∀ (fuel : Nat) (lng : ℚ) (counter : Nat),
      (genRow bounds ls r lat fuel lng counter).2
        = counter + (genRow bounds ls r lat fuel lng counter).1.length := by
  intro fuel
  induction fuel with
  | zero => intro lng counter; simp [genRow]
  | succ n ih =>
      intro lng counter
      by_cases h : lng ≤ bounds.max_lng
      · simp only [genRow, if_pos h, List.length_cons]
        rw [ih]
        omega
      · simp [genRow, if_neg h]

lemma genRow_ids (bounds : CityBounds) (ls : ℚ) (r : Nat) (lat : ℚ) :
    ∀ (fuel : Nat) (lng : ℚ) (counter : Nat),
      (genRow bounds ls r lat fuel lng counter).1.map (·.cell_id)
        = idsFrom bounds.name counter (genRow bounds ls r lat fuel lng counter).1.length := by
  intro fuel
  induction fuel with
  | zero => intro lng counter; simp [genRow, idsFrom]
  | succ n ih =>
      intro lng counter
      by_cases h : lng ≤ bounds.max_lng
      · simp only [genRow, if_pos h, List.map_cons, List.length_cons]
        rw [ih, idsFrom_succ]
      · simp [genRow, if_neg h, idsFrom]

lemma genRow_latitude (bounds : CityBounds) (ls : ℚ) (r : Nat) (lat : ℚ) :
    ∀ (fuel : Nat) (lng : ℚ) (counter : Nat),
      ∀ c ∈ (genRow bounds ls r lat fuel lng counter).1, c.latitude = lat := by
  intro fuel
  induction fuel with
  | zero => intro lng counter c hc; simp [genRow] at hc
  | succ n ih =>
      intro lng counter c hc
      by_cases h : lng ≤ bounds.max_lng
      · simp only [genRow, if_pos h, List.mem_cons] at hc
        rcases hc with rfl | hc
        · rfl
        · exact ih _ _ c hc
      · simp [genRow, if_neg h] at hc

lemma genRow_lng_le_max (bounds : CityBounds) (ls : ℚ) (r : Nat) (lat : ℚ) :
    ∀ (fuel : Nat) (lng : ℚ) (counter : Nat),
      ∀ c ∈ (genRow bounds ls r lat fuel lng counter).1, c.longitude ≤ bounds.max_lng := by
  intro fuel
  induction fuel with
  | zero => intro lng counter c hc; simp [genRow] at hc
  | succ n ih =>
      intro lng counter c hc
      by_cases h : lng ≤ bounds.max_lng
      · simp only [genRow, if_pos h, List.mem_cons] at hc
        rcases hc with rfl | hc
        · exact h
        · exact ih _ _ c hc
      · simp [genRow, if_neg h] at hc

lemma genRow_lng_ge (bounds : CityBounds) (ls : ℚ) (r : Nat) (lat : ℚ) (hls : 0 ≤ ls) :
    ∀ (fuel : Nat) (lng : ℚ) (counter : Nat),
      ∀ c ∈ (genRow bounds ls r lat fuel lng counter).1, lng ≤ c.longitude := by
  intro fuel
  induction fuel with
  | zero => intro lng counter c hc; simp [genRow] at hc
  | succ n ih =>
      intro lng counter c hc
      by_cases h : lng ≤ bounds.max_lng
      · simp only [genRow, if_pos h, List.mem_cons] at hc
        rcases hc with rfl | hc
        · exact le_refl _
        · exact le_trans (by linarith) (ih _ _ c hc)
      · simp [genRow, if_neg h] at hc

lemma genRow_pairwise_lng (bounds : CityBounds) (ls : ℚ) (r : Nat) (lat : ℚ) (hls : 0 < ls) :
    ∀ (fuel : Nat) (lng : ℚ) (counter : Nat),
      (genRow bounds ls r lat fuel lng counter).1.Pairwise
        (fun a b => a.longitude < b.longitude) := by
  intro fuel
  induction fuel with
  | zero => intro lng counter; simp [genRow]
  | succ n ih =>
      intro lng counter
      by_cases h : lng ≤ bounds.max_lng
      · simp only [genRow, if_pos h, List.pairwise_cons]
        refine ⟨fun c hc => ?_, ih _ _⟩
        have := genRow_lng_ge bounds ls r lat (le_of_lt hls) n (lng + ls) (counter + 1) c hc
        simpa using lt_of_lt_of_le (by linarith) this
      · simp [genRow, if_neg h]

lemma genRows_ids (bounds : CityBounds) (lat_step ls : ℚ) (r rowFuel : Nat) :
    ∀ (fuel : Nat) (lat : ℚ) (counter : Nat),
      (genRows bounds lat_step ls r rowFuel fuel lat counter).map (·.cell_id)
        = idsFrom bounds.name counter
            (genRows bounds lat_step ls r rowFuel fuel lat counter).length := by
  intro fuel
  induction fuel with
  | zero => intro lat counter; simp [genRows, idsFrom]
  | succ n ih =>
      intro lat counter
      by_cases h : lat ≤ bounds.max_lat
      · simp only [genRows, if_pos h, List.map_append, List.length_append]
        rw [ih, genRow_ids, genRow_counter, idsFrom_append]
      · simp [genRows, if_neg h, idsFrom]

lemma genRows_mem_bounds (bounds : CityBounds) (lat_step ls : ℚ) (r rowFuel : Nat)
    (hstep : 0 ≤ lat_step) (hls : 0 ≤ ls) :
    ∀ (fuel : Nat) (lat : ℚ) (counter : Nat),
      ∀ c ∈ genRows bounds lat_step ls r rowFuel fuel lat counter,
        lat ≤ c.latitude ∧ c.latitude ≤ bounds.max_lat ∧
        bounds.min_lng ≤ c.longitude ∧ c.longitude ≤ bounds.max_lng := by
  intro fuel
  induction fuel with
  | zero => intro lat counter c hc; simp [genRows] at hc
  | succ n ih =>
      intro lat counter c hc
      by_cases h : lat ≤ bounds.max_lat
      · simp only [genRows, if_pos h, List.mem_append] at hc
        rcases hc with hc | hc
        · have hlat := genRow_latitude bounds ls r lat rowFuel bounds.min_lng counter c hc
          have hlngge := genRow_lng_ge bounds ls r lat hls rowFuel bounds.min_lng counter c hc
          have hlngle := genRow_lng_le_max bounds ls r lat rowFuel bounds.min_lng counter c hc
          exact ⟨le_of_eq hlat.symm, hlat ▸ h, hlngge, hlngle⟩
        · have := ih _ _ c hc
          exact ⟨le_trans (by linarith) this.1, this.2.1, this.2.2.1, this.2.2.2⟩
      · simp [genRows, if_neg h] at hc

lemma genRows_pairwise (bounds : CityBounds) (lat_step ls : ℚ) (r rowFuel : Nat)
    (hstep : 0 < lat_step) (hls : 0 < ls) :
    ∀ (fuel : Nat) (lat : ℚ) (counter : Nat),
      (genRows bounds lat_step ls r rowFuel fuel lat counter).Pairwise latMajorLt := by
  intro fuel
  induction fuel with
  | zero => intro lat counter; simp [genRows]
  | succ n ih =>
      intro lat counter
      by_cases h : lat ≤ bounds.max_lat
      · simp only [genRows, if_pos h]
        rw [List.pairwise_append]
        refine ⟨?_, ih _ _, ?_⟩
        · have hrow := genRow_pairwise_lng bounds ls r lat hls rowFuel bounds.min_lng counter
          refine hrow.imp_of_mem ?_
          intro a b ha hb hab
          have h1 := genRow_latitude bounds ls r lat rowFuel bounds.min_lng counter a ha
          have h2 := genRow_latitude bounds ls r lat rowFuel bounds.min_lng counter b hb
          exact Or.inr ⟨h1.trans h2.symm, hab⟩
        · intro a ha b hb
          have h1 := genRow_latitude bounds ls r lat rowFuel bounds.min_lng counter a ha
          have h2 := (genRows_mem_bounds bounds lat_step ls r rowFuel
            (le_of_lt hstep) (le_of_lt hls) n (lat + lat_step) _ b hb).1
          exact Or.inl (by rw [h1]; linarith)
      · simp [genRows, if_neg h]

/-- Claim C7: for every boundary, cell size, longitude step, radius and
fuel, `generate_grid` emits cells in latitude-major order (each latitude
row complete, in increasing longitude, before the next, strictly higher
row — given positive steps), and the i-th emitted cell (1-based) carries
`cell_id = "{name}-{i}"`. -/
theorem C7_grid_row_major_ids (bounds : CityBounds) (cs ls : ℚ) (r rowFuel colFuel : Nat) :
    ((generate_grid bounds cs ls r rowFuel colFuel).map (·.cell_id)
        = idsFrom bounds.name 0 (generate_grid bounds cs ls r rowFuel colFuel).length) ∧
    (∀ (i : Nat) (h : i < (generate_grid bounds cs ls r rowFuel colFuel).length),
        ((generate_grid bounds cs ls r rowFuel colFuel).get ⟨i, h⟩).cell_id
          = bounds.name ++ "-" ++ toString (i + 1)) ∧
    (0 < cs → 0 < ls →
      (generate_grid bounds cs ls r rowFuel colFuel).Pairwise latMajorLt) := by
  have hmap : (generate_grid bounds cs ls r rowFuel colFuel).map (·.cell_id)
      = idsFrom bounds.name 0 (generate_grid bounds cs ls r rowFuel colFuel).length :=
    genRows_ids bounds (cs / 111) ls r rowFuel colFuel bounds.min_lat 0
  refine ⟨hmap, ?_, ?_⟩
  · intro i h
    have hq := congrArg (fun l => l[i]?) hmap
    simp only [idsFrom, List.getElem?_map] at hq
    rw [List.getElem?_eq_getElem h, List.getElem?_eq_getElem (by simpa using h)] at hq
    simp only [Option.map_some', List.getElem_range, Option.some.injEq] at hq
    rw [List.get_eq_getElem]
    rw [hq]
    exact congrArg (fun k => bounds.name ++ "-" ++ toString k) (by omega)
  · intro hcs hls
    exact genRows_pairwise bounds (cs / 111) ls r rowFuel (by positivity) hls
      colFuel bounds.min_lat 0

/-- Claim C7, witness: the theorem applied to a concrete boundary with
positive steps. -/
theorem C7_grid_row_major_ids_witness :
    (0 : ℚ) < 111 / 2 ∧ (0 : ℚ) < 1 / 2 ∧
    (generate_grid ⟨"T", 0, 1, 0, 1⟩ (111 / 2) (1 / 2) 1000 5 5).Pairwise latMajorLt ∧
    (generate_grid ⟨"T", 0, 1, 0, 1⟩ (111 / 2) (1 / 2) 1000 5 5).map (·.cell_id)
      = idsFrom "T" 0 (generate_grid ⟨"T", 0, 1, 0, 1⟩ (111 / 2) (1 / 2) 1000 5 5).length :=
  ⟨by norm_num, by norm_num,
    (C7_grid_row_major_ids ⟨"T", 0, 1, 0, 1⟩ (111 / 2) (1 / 2) 1000 5 5).2.2
      (by norm_num) (by norm_num),
    (C7_grid_row_major_ids ⟨"T", 0, 1, 0, 1⟩ (111 / 2) (1 / 2) 1000 5 5).1⟩

/-- Claim C10: with nonnegative steps, every cell emitted by
`generate_grid` lies inside the boundary rectangle itself (not merely
within one step of it): its latitude is between `min_lat` and `max_lat`
and its longitude between `min_lng` and `max_lng`, because each loop
guard is checked before emission. -/
theorem C10_cells_within_bounds (bounds : CityBounds) (cs ls : ℚ) (r rowFuel colFuel : Nat)
    (hcs : 0 ≤ cs) (hls : 0 ≤ ls) :
    ∀ c ∈ generate_grid bounds cs ls r rowFuel colFuel,
      bounds.min_lat ≤ c.latitude ∧ c.latitude ≤ bounds.max_lat ∧
      bounds.min_lng ≤ c.longitude ∧ c.longitude ≤ bounds.max_lng := by
  intro c hc
  have := genRows_mem_bounds bounds (cs / 111) ls r rowFuel (by positivity) hls
    colFuel bounds.min_lat 0 c hc
  exact this

/-- Claim C10, witness: the theorem applied to a concrete boundary. -/
theorem C10_cells_within_bounds_witness :
    (0 : ℚ) ≤ 111 / 2 ∧ (0 : ℚ) ≤ 1 / 2 ∧
    ∀ c ∈ generate_grid ⟨"T", 0, 1, 0, 1⟩ (111 / 2) (1 / 2) 1000 5 5,
      (0 : ℚ) ≤ c.latitude ∧ c.latitude ≤ 1 ∧ (0 : ℚ) ≤ c.longitude ∧ c.longitude ≤ 1 :=
  ⟨by norm_num, by norm_num,
    C10_cells_within_bounds ⟨"T", 0, 1, 0, 1⟩ (111 / 2) (1 / 2) 1000 5 5
      (by norm_num) (by norm_num)⟩

lemma coreStats_fields {x y : SyncStats} (h : coreStats x = coreStats y) :
    x.api_requests = y.api_requests ∧ x.places_retrieved = y.places_retrieved ∧
    x.places_created = y.places_created ∧ x.places_skipped = y.places_skipped ∧
    x.places_failed = y.places_failed ∧ x.errors = y.errors := by
  simpa [coreStats, Prod.ext_iff, and_assoc] using h

lemma foldl_coreStats {α : Type} (f : SyncStats → α → SyncStats)
    (hf : ∀ s a, coreStats (f s a) = coreStats s) :
    ∀ (l : List α) (acc : SyncStats), coreStats (l.foldl f acc) = coreStats acc := by
  intro l
  induction l with
  | nil => intro acc; rfl
  | cons a t ih => intro acc; rw [List.foldl_cons, ih, hf]

lemma reviewStep_core (env : SyncEnv) (pid : Nat) (pids : String) (s : SyncStats)
    (review : GoogleReview) : coreStats (reviewStep env pid pids s review) = coreStats s := by
  unfold reviewStep
  cases review.rating with
  | none => rfl
  | some r =>
      by_cases h : env.reviewOk pid (pids ++ "_" ++ toString (review.time.getD 0)) = true
      · simp [h, coreStats]
      · simp [h]

lemma photoStep_core (env : SyncEnv) (pid : Nat) (s : SyncStats) (photo : GooglePhoto) :
    coreStats (photoStep env pid s photo) = coreStats s := by
  unfold photoStep
  by_cases h : env.photoOk pid photo.photo_reference = true
  · simp [h, coreStats]
  · simp [h]

lemma processReviews_core (env : SyncEnv) (pid : Nat) (pids : String)
    (rv : Option (List GoogleReview)) (acc : SyncStats) :
    coreStats (processReviews env pid pids rv acc) = coreStats acc := by
  cases rv with
  | none => rfl
  | some reviews =>
      exact foldl_coreStats (reviewStep env pid pids) (reviewStep_core env pid pids)
        reviews acc

lemma processPhotos_core (env : SyncEnv) (pid : Nat)
    (ph : Option (List GooglePhoto)) (acc : SyncStats) :
    coreStats (processPhotos env pid ph acc) = coreStats acc := by
  cases ph with
  | none => rfl
  | some photos => exact foldl_coreStats (photoStep env pid) (photoStep_core env pid) photos acc

lemma processPhotos_processReviews_core (env : SyncEnv) (pid : Nat) (pids : String)
    (rv : Option (List GoogleReview)) (ph : Option (List GooglePhoto)) (acc : SyncStats) :
    coreStats (processPhotos env pid ph (processReviews env pid pids rv acc))
      = coreStats acc := by
  rw [processPhotos_core, processReviews_core]

lemma countGid_eq_zero_find (db : Db) (gid : String) (h : countGid db gid = 0) :
    db.places.find? (fun p => p.google_place_id == some gid) = none := by
  rw [List.find?_eq_none]
  intro x hx hpx
  have hmem : x ∈ db.places.filter (fun p => p.google_place_id == some gid) :=
    List.mem_filter.mpr ⟨hx, hpx⟩
  unfold countGid at h
  rw [List.length_eq_zero] at h
  rw [h] at hmem
  exact absurd hmem (List.not_mem_nil x)

lemma countGid_pos_find (db : Db) (gid : String) (h : 0 < countGid db gid) :
    ∃ old, db.places.find? (fun p => p.google_place_id == some gid) = some old := by
  cases hf : db.places.find? (fun p => p.google_place_id == some gid) with
  | some old => exact ⟨old, rfl⟩
  | none =>
      exfalso
      rw [List.find?_eq_none] at hf
      have : db.places.filter (fun p => p.google_place_id == some gid) = [] := by
        rw [List.filter_eq_nil_iff]
        exact hf
      unfold countGid at h
      rw [this] at h
      simp at h

lemma length_filter_map_update (l : List Place) (gid : String) (updated : Place)
    (hu : (updated.google_place_id == some gid) = true) :
    ((l.map (fun p => if p.google_place_id == some gid then updated else p)).filter
        (fun p => p.google_place_id == some gid)).length
      = (l.filter (fun p => p.google_place_id == some gid)).length := by
  induction l with
  | nil => rfl
  | cons x t ih =>
      simp only [List.map_cons]
      by_cases hx : (x.google_place_id == some gid) = true
      · rw [if_pos hx, List.filter_cons, List.filter_cons, if_pos hu, if_pos hx]
        simp only [List.length_cons]
        rw [ih]
      · rw [if_neg hx, List.filter_cons, List.filter_cons, if_neg hx, if_neg hx]
        exact ih

lemma upsert_insert_fresh (env : SyncEnv) (db : Db) (req : CreatePlaceRequest) (gid : String)
    (hreq : req.google_place_id = some gid) (hins : env.insertFails gid = none)
    (hcnt : countGid db gid = 0) :
    ∃ db1 p, upsert_google_place env db req = .ok (db1, p, true) ∧ countGid db1 gid = 1 := by
  have hfind := countGid_eq_zero_find db gid hcnt
  unfold upsert_google_place
  rw [hreq]
  simp only [hins, hfind]
  refine ⟨_, _, rfl, ?_⟩
  unfold countGid at hcnt ⊢
  simp only [List.filter_append, List.length_append, hcnt]
  simp

lemma upsert_update_existing (env : SyncEnv) (db : Db) (req : CreatePlaceRequest)
    (gid : String) (hreq : req.google_place_id = some gid)
    (hins : env.insertFails gid = none) (hcnt : countGid db gid = 1) :
    ∃ db1 p, upsert_google_place env db req = .ok (db1, p, false) ∧ countGid db1 gid = 1 := by
  obtain ⟨old, hold⟩ := countGid_pos_find db gid (by omega)
  have hu : (old.google_place_id == some gid) = true := by
    have h := List.find?_some hold
    simpa using h
  unfold upsert_google_place
  rw [hreq]
  simp only [hins, hold]
  refine ⟨_, _, rfl, ?_⟩
  unfold countGid
  dsimp only
  rw [length_filter_map_update db.places gid
    { id := old.id, name := req.name, type_ := req.type_, location := req.location,
      city := req.city, google_place_id := old.google_place_id,
      google_rating := req.google_rating } hu]
  exact hcnt

lemma upsert_ok_of_no_failure (env : SyncEnv) (db : Db) (req : CreatePlaceRequest)
    (gid : String) (hreq : req.google_place_id = some gid)
    (hins : env.insertFails gid = none) :
    ∃ db1 p c, upsert_google_place env db req = .ok (db1, p, c) := by
  unfold upsert_google_place
  rw [hreq]
  simp only [hins]
  cases db.places.find? (fun p => p.google_place_id == some gid) with
  | none => exact ⟨_, _, _, rfl⟩
  | some old => exact ⟨_, _, _, rfl⟩

lemma processPlace_first_sight (env : SyncEnv) (city : String) (st : Db × SyncStats)
    (gp : GooglePlace)
    (hins : env.insertFails (detailedOf env gp).place_id = none)
    (hcnt : countGid st.1 (detailedOf env gp).place_id = 0) :
    (processPlace env city st gp).2.places_created = st.2.places_created + 1 ∧
    (processPlace env city st gp).2.places_skipped = st.2.places_skipped ∧
    (processPlace env city st gp).2.errors = st.2.errors ∧
    countGid (processPlace env city st gp).1 (detailedOf env gp).place_id = 1 := by
  cases hdet : env.details gp.place_id with
  | ok d =>
      have hdd : detailedOf env gp = d := by unfold detailedOf; rw [hdet]
      rw [hdd] at hins hcnt ⊢
      obtain ⟨db1, p, hup, hcnt1⟩ := upsert_insert_fresh env st.1
        (to_create_request d city) d.place_id rfl hins hcnt
      simp only [processPlace, hdd, hdet, hup, if_true]
      refine ⟨?_, ?_, ?_, ?_⟩
      · rw [(coreStats_fields (processPhotos_processReviews_core env p.id d.place_id
          d.reviews d.photos _)).2.2.1]
      · rw [(coreStats_fields (processPhotos_processReviews_core env p.id d.place_id
          d.reviews d.photos _)).2.2.2.1]
      · rw [(coreStats_fields (processPhotos_processReviews_core env p.id d.place_id
          d.reviews d.photos _)).2.2.2.2.2]
      · exact hcnt1
  | error e =>
      have hdd : detailedOf env gp = gp := by unfold detailedOf; rw [hdet]
      rw [hdd] at hins hcnt ⊢
      obtain ⟨db1, p, hup, hcnt1⟩ := upsert_insert_fresh env st.1
        (to_create_request gp city) gp.place_id rfl hins hcnt
      simp only [processPlace, hdd, hdet, hup, if_true]
      refine ⟨?_, ?_, ?_, ?_⟩
      · rw [(coreStats_fields (processPhotos_processReviews_core env p.id gp.place_id
          gp.reviews gp.photos _)).2.2.1]
      · rw [(coreStats_fields (processPhotos_processReviews_core env p.id gp.place_id
          gp.reviews gp.photos _)).2.2.2.1]
      · rw [(coreStats_fields (processPhotos_processReviews_core env p.id gp.place_id
          gp.reviews gp.photos _)).2.2.2.2.2]
      · exact hcnt1

lemma processPlace_later_sight (env : SyncEnv) (city : String) (st : Db × SyncStats)
    (gp : GooglePlace)
    (hins : env.insertFails (detailedOf env gp).place_id = none)
    (hcnt : countGid st.1 (detailedOf env gp).place_id = 1) :
    (processPlace env city st gp).2.places_created = st.2.places_created ∧
    (processPlace env city st gp).2.places_skipped = st.2.places_skipped + 1 ∧
    (processPlace env city st gp).2.errors = st.2.errors ∧
    countGid (processPlace env city st gp).1 (detailedOf env gp).place_id = 1 := by
  cases hdet : env.details gp.place_id with
  | ok d =>
      have hdd : detailedOf env gp = d := by unfold detailedOf; rw [hdet]
      rw [hdd] at hins hcnt ⊢
      obtain ⟨db1, p, hup, hcnt1⟩ := upsert_update_existing env st.1
        (to_create_request d city) d.place_id rfl hins hcnt
      simp only [processPlace, hdd, hdet, hup, if_false, Bool.false_eq_true]
      refine ⟨?_, ?_, ?_, ?_⟩
      · rw [(coreStats_fields (processPhotos_processReviews_core env p.id d.place_id
          d.reviews d.photos _)).2.2.1]
      · rw [(coreStats_fields (processPhotos_processReviews_core env p.id d.place_id
          d.reviews d.photos _)).2.2.2.1]
      · rw [(coreStats_fields (processPhotos_processReviews_core env p.id d.place_id
          d.reviews d.photos _)).2.2.2.2.2]
      · exact hcnt1
  | error e =>
      have hdd : detailedOf env gp = gp := by unfold detailedOf; rw [hdet]
      rw [hdd] at hins hcnt ⊢
      obtain ⟨db1, p, hup, hcnt1⟩ := upsert_update_existing env st.1
        (to_create_request gp city) gp.place_id rfl hins hcnt
      simp only [processPlace, hdd, hdet, hup, if_false, Bool.false_eq_true]
      refine ⟨?_, ?_, ?_, ?_⟩
      · rw [(coreStats_fields (processPhotos_processReviews_core env p.id gp.place_id
          gp.reviews gp.photos _)).2.2.1]
      · rw [(coreStats_fields (processPhotos_processReviews_core env p.id gp.place_id
          gp.reviews gp.photos _)).2.2.2.1]
      · rw [(coreStats_fields (processPhotos_processReviews_core env p.id gp.place_id
          gp.reviews gp.photos _)).2.2.2.2.2]
      · exact hcnt1

/-- Claim C1: upsert is idempotent on `google_place_id` — on first sight of
an identifier the upsert inserts, reports `was_created = true` and leaves
exactly one stored row for it; on every later sight (same or different
payload) it updates in place, reports `was_created = false` and the row
count for the identifier stays one; accordingly the orchestrator's
per-record step increments `places_created` exactly on first sight and
`places_skipped` on every later sight (store succeeding). -/
theorem C1_upsert_idempotent :
    (∀ (env : SyncEnv) (db : Db) (req : CreatePlaceRequest) (gid : String),
      req.google_place_id = some gid → env.insertFails gid = none →
      countGid db gid = 0 →
      ∃ db1 p, upsert_google_place env db req = .ok (db1, p, true) ∧ countGid db1 gid = 1) ∧
    (∀ (env : SyncEnv) (db : Db) (req : CreatePlaceRequest) (gid : String),
      req.google_place_id = some gid → env.insertFails gid = none →
      countGid db gid = 1 →
      ∃ db1 p, upsert_google_place env db req = .ok (db1, p, false) ∧
        countGid db1 gid = 1) ∧
    (∀ (env : SyncEnv) (city : String) (st : Db × SyncStats) (gp : GooglePlace),
      env.insertFails (detailedOf env gp).place_id = none →
      countGid st.1 (detailedOf env gp).place_id = 0 →
      (processPlace env city st gp).2.places_created = st.2.places_created + 1 ∧
      (processPlace env city st gp).2.places_skipped = st.2.places_skipped ∧
      countGid (processPlace env city st gp).1 (detailedOf env gp).place_id = 1) ∧
    (∀ (env : SyncEnv) (city : String) (st : Db × SyncStats) (gp : GooglePlace),
      env.insertFails (detailedOf env gp).place_id = none →
      countGid st.1 (detailedOf env gp).place_id = 1 →
      (processPlace env city st gp).2.places_created = st.2.places_created ∧
      (processPlace env city st gp).2.places_skipped = st.2.places_skipped + 1 ∧
      countGid (processPlace env city st gp).1 (detailedOf env gp).place_id = 1) := by
  refine ⟨upsert_insert_fresh, upsert_update_existing, ?_, ?_⟩
  · intro env city st gp hins hcnt
    obtain ⟨h1, h2, _, h4⟩ := processPlace_first_sight env city st gp hins hcnt
    exact ⟨h1, h2, h4⟩
  · intro env city st gp hins hcnt
    obtain ⟨h1, h2, _, h4⟩ := processPlace_later_sight env city st gp hins hcnt
    exact ⟨h1, h2, h4⟩

/-- Claim C1, witness: the theorem applied to the concrete identifier
`"g1"` — fresh against the empty store, repeated against the store already
holding it. -/
theorem C1_upsert_idempotent_witness :
    (∃ db1 p, upsert_google_place envStub emptyDb reqG1 = .ok (db1, p, true) ∧
      countGid db1 "g1" = 1) ∧
    (∃ db2 q, upsert_google_place envStub dbG1 reqG1 = .ok (db2, q, false) ∧
      countGid db2 "g1" = 1) :=
  ⟨C1_upsert_idempotent.1 envStub emptyDb reqG1 "g1" rfl rfl (by decide),
   C1_upsert_idempotent.2.1 envStub dbG1 reqG1 "g1" rfl rfl (by decide)⟩

/-- Claim C2: a rate-limited nearby-search appends an error string and
aborts the cell loop at once — the result does not depend on the remaining
cells and is exactly the stats accumulated so far plus the error entry;
every other nearby-search error appends its error string and the loop
continues with the next cell; and whenever the boundary resolves, the run's
(possibly partial) stats are returned as the `Ok` result. -/
theorem C2_rate_limit_abort :
    (∀ (env : SyncEnv) (city : String) (place_type : Option String) (cell : GridCell)
        (rest : List GridCell) (st : Db × SyncStats),
      env.nearby cell.latitude cell.longitude cell.radius place_type none
          = .error .RateLimitExceeded →
      processCells env city place_type (cell :: rest) st
        = (st.1, { st.2 with errors := st.2.errors
            ++ ["API error for cell " ++ cell.cell_id ++ ": " ++ "Rate limit exceeded"] })) ∧
    (∀ (env : SyncEnv) (city : String) (place_type : Option String) (cell : GridCell)
        (rest : List GridCell) (st : Db × SyncStats) (e : PlacesError),
      env.nearby cell.latitude cell.longitude cell.radius place_type none = .error e →
      e ≠ .RateLimitExceeded →
      processCells env city place_type (cell :: rest) st
        = processCells env city place_type rest
            (st.1, { st.2 with errors := st.2.errors
              ++ ["API error for cell " ++ cell.cell_id ++ ": " ++ e.display] })) ∧
    (∀ (env : SyncEnv) (db : Db) (city : String) (place_type : Option String)
        (cs : Option ℚ) (rm : Option Nat) (bounds : CityBounds),
      get_city_bounds city = some bounds →
      ∃ stats, (sync_city env db city place_type cs rm).2 = .ok stats) := by
  refine ⟨?_, ?_, ?_⟩
  · intro env city place_type cell rest st h
    simp only [processCells, h]
    rw [if_pos trivial]
    rfl
  · intro env city place_type cell rest st e h hne
    simp only [processCells, h]
    rw [if_neg hne]
  · intro env db city place_type cs rm bounds h
    unfold sync_city generate_for_city
    rw [h]
    exact ⟨_, rfl⟩

/-- Claim C2, witness: the abort branch applied to a two-cell tail — the
second cell is dropped and only the first cell's error entry is recorded. -/
theorem C2_rate_limit_abort_witness :
    processCells envRL "Zaragoza" none
        [⟨0, 0, 1000, "Zaragoza-1"⟩, ⟨0, 1, 1000, "Zaragoza-2"⟩]
        (emptyDb, SyncStats.new "Zaragoza" 0)
      = (emptyDb, { SyncStats.new "Zaragoza" 0 with errors :=
          (SyncStats.new "Zaragoza" 0).errors
            ++ ["API error for cell " ++ "Zaragoza-1" ++ ": " ++ "Rate limit exceeded"] }) :=
  C2_rate_limit_abort.1 envRL "Zaragoza" none ⟨0, 0, 1000, "Zaragoza-1"⟩
    [⟨0, 1, 1000, "Zaragoza-2"⟩] (emptyDb, SyncStats.new "Zaragoza" 0) rfl

lemma processPlace_api (env : SyncEnv) (city : String) (st : Db × SyncStats)
    (gp : GooglePlace) :
    (processPlace env city st gp).2.api_requests
      = st.2.api_requests + (if isOkE (env.details gp.place_id) = true then 1 else 0) := by
  cases hdet : env.details gp.place_id with
  | ok d =>
      have hdd : detailedOf env gp = d := by unfold detailedOf; rw [hdet]
      simp only [processPlace, hdd, hdet, isOkE, if_true]
      cases hup : upsert_google_place env st.1 (to_create_request d city) with
      | error e => rfl
      | ok t =>
          obtain ⟨db1, p, created⟩ := t
          cases created with
          | true =>
              simp only [if_true]
              rw [(coreStats_fields (processPhotos_processReviews_core env p.id d.place_id
                d.reviews d.photos _)).1]
          | false =>
              simp only [Bool.false_eq_true, if_false]
              rw [(coreStats_fields (processPhotos_processReviews_core env p.id d.place_id
                d.reviews d.photos _)).1]
  | error e =>
      have hdd : detailedOf env gp = gp := by unfold detailedOf; rw [hdet]
      simp only [processPlace, hdd, hdet, isOkE, if_false, Bool.false_eq_true, Nat.add_zero]
      cases hup : upsert_google_place env st.1 (to_create_request gp city) with
      | error e1 => rfl
      | ok t =>
          obtain ⟨db1, p, created⟩ := t
          cases created with
          | true =>
              simp only [if_true]
              rw [(coreStats_fields (processPhotos_processReviews_core env p.id gp.place_id
                gp.reviews gp.photos _)).1]
          | false =>
              simp only [Bool.false_eq_true, if_false]
              rw [(coreStats_fields (processPhotos_processReviews_core env p.id gp.place_id
                gp.reviews gp.photos _)).1]

lemma foldl_processPlace_api (env : SyncEnv) (city : String) (gps : List GooglePlace) :
    ∀ st : Db × SyncStats,
      (gps.foldl (processPlace env city) st).2.api_requests
        = st.2.api_requests + detailSuccesses env gps := by
  induction gps with
  | nil => intro st; simp [detailSuccesses]
  | cons gp t ih =>
      intro st
      rw [List.foldl_cons, ih, processPlace_api]
      unfold detailSuccesses
      rw [List.filter_cons]
      by_cases h : isOkE (env.details gp.place_id) = true
      · rw [if_pos h, if_pos h]
        simp only [List.length_cons]
        omega
      · rw [if_neg h, if_neg h]
        omega

/-- Claim C4 (amended): over every cell list, the run's `api_requests`
grows by exactly one per SUCCESSFUL nearby-search and one per successful
detail lookup; failed calls (nearby-search errors, detail-lookup errors)
are issued but never counted, and nothing is counted at or beyond a
rate-limited cell. -/
theorem C4_api_requests_successful_only (env : SyncEnv) (city : String)
    (place_type : Option String) (cells : List GridCell) (st : Db × SyncStats) :
    (processCells env city place_type cells st).2.api_requests
      = st.2.api_requests + chargedApiRequests env place_type cells := by
  induction cells generalizing st with
  | nil => simp [processCells, chargedApiRequests]
  | cons cell rest ih =>
      cases hn : env.nearby cell.latitude cell.longitude cell.radius place_type none with
      | ok gps =>
          simp only [processCells, chargedApiRequests, hn]
          rw [ih, foldl_processPlace_api]
          dsimp only
          omega
      | error e =>
          by_cases he : e = .RateLimitExceeded
          · subst he
            simp only [processCells, chargedApiRequests, hn]
            rw [if_pos trivial]
            simp
          · simp only [processCells, chargedApiRequests, hn]
            rw [if_neg he, if_neg he, ih]

/-- Claim C4, counterexample: a failed nearby-search is NOT counted as an
API call — processing one cell whose nearby-search fails leaves
`api_requests` at 0 even though the invocation was issued (its error entry
is recorded), contradicting \"whether or not the call succeeds\". -/
theorem C4_counterexample :
    processCells envApiErr "Zaragoza" none [⟨0, 0, 1000, "Zaragoza-1"⟩]
        (emptyDb, SyncStats.new "Zaragoza" 0)
      = (emptyDb, { SyncStats.new "Zaragoza" 0 with errors :=
          ["API error for cell " ++ "Zaragoza-1" ++ ": " ++ "External API error: "
            ++ "boom"] }) ∧
    (processCells envApiErr "Zaragoza" none [⟨0, 0, 1000, "Zaragoza-1"⟩]
        (emptyDb, SyncStats.new "Zaragoza" 0)).2.api_requests = 0 := by
  constructor
  · simp only [processCells, envApiErr, envStub]
    rw [if_neg (by decide)]
    simp [SyncStats.new, PlacesError.display]
  · simp only [processCells, envApiErr, envStub]
    rw [if_neg (by decide)]
    simp [SyncStats.new]

lemma processPlace_ok_errors (env : SyncEnv) (city : String) (st : Db × SyncStats)
    (gp : GooglePlace)
    (hins : env.insertFails (detailedOf env gp).place_id = none) :
    (processPlace env city st gp).2.errors = st.2.errors := by
  cases hdet : env.details gp.place_id with
  | ok d =>
      have hdd : detailedOf env gp = d := by unfold detailedOf; rw [hdet]
      rw [hdd] at hins
      obtain ⟨db1, p, c, hup⟩ := upsert_ok_of_no_failure env st.1
        (to_create_request d city) d.place_id rfl hins
      simp only [processPlace, hdd, hdet, hup]
      cases c with
      | true =>
          simp only [if_true]
          rw [(coreStats_fields (processPhotos_processReviews_core env p.id d.place_id
            d.reviews d.photos _)).2.2.2.2.2]
      | false =>
          simp only [Bool.false_eq_true, if_false]
          rw [(coreStats_fields (processPhotos_processReviews_core env p.id d.place_id
            d.reviews d.photos _)).2.2.2.2.2]
  | error e =>
      have hdd : detailedOf env gp = gp := by unfold detailedOf; rw [hdet]
      rw [hdd] at hins
      obtain ⟨db1, p, c, hup⟩ := upsert_ok_of_no_failure env st.1
        (to_create_request gp city) gp.place_id rfl hins
      simp only [processPlace, hdd, hdet, hup]
      cases c with
      | true =>
          simp only [if_true]
          rw [(coreStats_fields (processPhotos_processReviews_core env p.id gp.place_id
            gp.reviews gp.photos _)).2.2.2.2.2]
      | false =>
          simp only [Bool.false_eq_true, if_false]
          rw [(coreStats_fields (processPhotos_processReviews_core env p.id gp.place_id
            gp.reviews gp.photos _)).2.2.2.2.2]

/-- Claim C9 (amended): when the detail lookup of a retrieved record fails,
the orchestrator proceeds with the basic nearby-search record — it is still
mapped and upserted (on first sight it is created and stored exactly once)
and processing continues — but the detail failure is only logged: no string
is appended to the stats error list (the error list is unchanged whenever
the store succeeds) and the failed lookup is not billed as an API
request. -/
theorem C9_detail_failure_uses_basic_record :
    ∀ (env : SyncEnv) (city : String) (st : Db × SyncStats) (gp : GooglePlace)
      (e : PlacesError),
      env.details gp.place_id = .error e →
      env.insertFails gp.place_id = none →
      (countGid st.1 gp.place_id = 0 →
        (processPlace env city st gp).2.places_created = st.2.places_created + 1 ∧
        countGid (processPlace env city st gp).1 gp.place_id = 1) ∧
      (processPlace env city st gp).2.errors = st.2.errors ∧
      (processPlace env city st gp).2.api_requests = st.2.api_requests := by
  intro env city st gp e hdet hins
  have hdd : detailedOf env gp = gp := by unfold detailedOf; rw [hdet]
  refine ⟨?_, ?_, ?_⟩
  · intro hcnt
    obtain ⟨h1, _, _, h4⟩ := processPlace_first_sight env city st gp
      (by rw [hdd]; exact hins) (by rw [hdd]; exact hcnt)
    rw [hdd] at h4
    exact ⟨h1, h4⟩
  · exact processPlace_ok_errors env city st gp (by rw [hdd]; exact hins)
  · rw [processPlace_api]
    simp [hdet, isOkE]

/-- Claim C9, counterexample: under an environment whose detail lookup
fails, the record is still upserted from its basic data (one row stored,
`places_created = 1`) but the stats error list stays EMPTY — the detail
failure is logged only, never \"recorded as a string in the stats error
list\" as the claim states. -/
theorem C9_counterexample :
    envStub.details "g1" = .error (.ExternalApiError "details unavailable") ∧
    processPlace envStub "Zaragoza" (emptyDb, SyncStats.new "Zaragoza" 0) gpBar
      = (dbG1, { SyncStats.new "Zaragoza" 0 with places_created := 1 }) := by
  exact ⟨rfl, rfl⟩

/-- Claim C8: a city name outside the static registry makes grid generation
return the typed `Unknown city` error, and the single-city sync fails fast
with `InvalidInput`, returning no stats at all and leaving the store
untouched. -/
theorem C8_unknown_city_fails_fast :
    ∀ (env : SyncEnv) (db : Db) (city : String) (place_type : Option String)
      (cs : Option ℚ) (rm : Option Nat),
      get_city_bounds city = none →
      generate_for_city city cs rm env.lng_step env.rowFuel env.colFuel
          = .error ("Unknown city: " ++ city) ∧
      sync_city env db city place_type cs rm
          = (db, .error (.InvalidInput ("Unknown city: " ++ city))) := by
  intro env db city place_type cs rm h
  constructor
  · unfold generate_for_city
    rw [h]
  · unfold sync_city generate_for_city
    rw [h]

/-- Claim C8, witness: the theorem applied to the unknown city name
`"Atlantis"`. -/
theorem C8_unknown_city_fails_fast_witness :
    get_city_bounds "Atlantis" = none ∧
    sync_city envStub emptyDb "Atlantis" none none none
      = (emptyDb, .error (.InvalidInput ("Unknown city: " ++ "Atlantis"))) :=
  ⟨by decide,
    (C8_unknown_city_fails_fast envStub emptyDb "Atlantis" none none none (by decide)).2⟩

/-- Claim C9 (amended), witness: the theorem applied to `gpBar` under
`envStub`, whose detail lookup fails. -/
theorem C9_detail_failure_uses_basic_record_witness :
    (processPlace envStub "Zaragoza" (emptyDb, SyncStats.new "Zaragoza" 0)
        gpBar).2.places_created = (SyncStats.new "Zaragoza" 0).places_created + 1 ∧
    countGid (processPlace envStub "Zaragoza" (emptyDb, SyncStats.new "Zaragoza" 0)
        gpBar).1 "g1" = 1 ∧
    (processPlace envStub "Zaragoza" (emptyDb, SyncStats.new "Zaragoza" 0)
        gpBar).2.errors = (SyncStats.new "Zaragoza" 0).errors ∧
    (processPlace envStub "Zaragoza" (emptyDb, SyncStats.new "Zaragoza" 0)
        gpBar).2.api_requests = (SyncStats.new "Zaragoza" 0).api_requests := by
  obtain ⟨h1, h2, h3⟩ := C9_detail_failure_uses_basic_record envStub "Zaragoza"
    (emptyDb, SyncStats.new "Zaragoza" 0) gpBar (.ExternalApiError "details unavailable")
    rfl rfl
  obtain ⟨ha, hb⟩ := h1 (by decide)
  exact ⟨ha, hb, h2, h3⟩

